import Mathlib

/-!
Shallow embedding of the SSH connection engine in pkg/remote/sshclient.go
(waveterm). Pure Lean models of the configuration merge, the public-key
authentication callback, the known-hosts verifier, the prompt-context
policy and the recursive proxy-jump connector, with theorems checking the
specification claims against these models.

External effects (file system, user prompts, the ssh_config lookup, the
knownhosts database library, network dials) are modelled as explicit
oracle records passed to each function; errors are a structured inductive
mirroring the concrete error values the Go code constructs.
-/

namespace WaveSsh

/-- Mirrors `SshProxyJumpMaxDepth = 10` (sshclient.go line 37). -/
def SshProxyJumpMaxDepth : Int := 10

/-- Mirrors Go `math.MaxInt32`. -/
def maxInt32 : Int := 2147483647

/-- Mirrors `wshrpc.ConnKeywords` as used by sshclient.go: the keyword
fields the connection engine reads and writes. Zero values mirror Go zero
values (empty string, empty list, false). -/
structure ConnKeywords where
  sshUser : String := ""
  sshHostName : String := ""
  sshPort : String := ""
  sshIdentityFile : List String := []
  sshBatchMode : Bool := false
  sshPubkeyAuthentication : Bool := false
  sshPasswordAuthentication : Bool := false
  sshKbdInteractiveAuthentication : Bool := false
  sshPreferredAuthentications : List String := []
  sshAddKeysToAgent : Bool := false
  sshIdentityAgent : String := ""
  sshProxyJump : List String := []
  sshUserKnownHostsFile : List String := []
  sshGlobalKnownHostsFile : List String := []
  deriving Repr, DecidableEq

/-- Mirrors `SSHOpts` (sshclient.go lines 866-870). -/
structure SSHOpts where
  sshHost : String := ""
  sshUser : String := ""
  sshPort : Int := 0
  deriving Repr, DecidableEq

/-- Mirrors `SSHOpts.String()` (lines 872-882). -/
def SSHOpts.toRawName (opts : SSHOpts) : String :=
  let s := if opts.sshUser != "" then opts.sshUser ++ "@" else ""
  let s := s ++ opts.sshHost
  if opts.sshPort != 0 then s ++ ":" ++ toString opts.sshPort else s

/-- Clients are abstract handles; the model names them by numeric id. -/
abbrev ClientId := Nat

/-- Mirrors `ConnectionDebugInfo` (lines 60-64): current transport,
attempted next-hop options, jump depth. -/
structure ConnectionDebugInfo where
  currentClient : Option ClientId
  nextOpts : SSHOpts
  jumpNum : Int
  deriving Repr, DecidableEq

/-- Structured model of the Go `error` values built in sshclient.go.
Each constructor notes the concrete error it mirrors. -/
inductive GoError where
  /-- any error carried by a plain `fmt.Errorf`/library error not modelled
  more precisely -/
  | errStr (s : String)
  /-- Mirrors `UserInputCancelError` (lines 50-52) wrapping an inner error -/
  | userInputCancel (e : GoError)
  /-- Mirrors `ConnectionError` (lines 66-69): debug info plus inner error -/
  | connection (d : ConnectionDebugInfo) (e : GoError)
  /-- Mirrors `xknownhosts.RevokedError` -/
  | revoked
  /-- Mirrors `xknownhosts.KeyError` with its `Want` list (keys the store expected,
  base64 content) -/
  | keyErr (want : List String)
  /-- Mirrors `os.PathError` for a path, as produced by `knownhosts.NewDB` -/
  | pathErr (path : String)
  /-- line 641: ProxyJump jumpNum exceeds max depth -/
  | depthExceeded (jumpNum maxDepth : Int)
  /-- line 140: no identity files remaining -/
  | noIdentityFilesRemaining
  /-- line 540: remote host identification has changed -/
  | hostKeyMismatch
  /-- line 414: no known_hosts files provided by ssh -/
  | noKnownHostsFiles
  /-- line 436: problem file does not exist -/
  | problemFileMissing (path : String)
  /-- line 441: known_hosts formatting error -/
  | knownHostsFormat
  /-- line 506: unable to create new knownhost key, wrapping the last write
  error -/
  | unableToCreateKnownhostKey (e : GoError)
  /-- line 342 / 372: user selected no on a confirm prompt -/
  | userSelectedNo
  /-- line 307: canceled by the user -/
  | canceledByUser
  /-- line 476: placeholder error seeding the write loop -/
  | placeholderErr
  deriving Repr, DecidableEq

/-- Holds iff the error is a `ConnectionError` at the outermost level. -/
def GoError.isConnection : GoError → Bool
  | .connection _ _ => true
  | _ => false

/-- Holds iff a `UserInputCancelError` occurs anywhere in the error chain
(the distinguishable user-cancellation marker). -/
def GoError.containsCancel : GoError → Bool
  | .userInputCancel _ => true
  | .connection _ e => e.containsCancel
  | .unableToCreateKnownhostKey e => e.containsCancel
  | _ => false

/-- Environment for `combineSshKeywords`: result of `user.Current()`. -/
structure UserEnv where
  currentUser : Except GoError String

/-- Mirrors lines 698-708: user precedence — caller-supplied, then
config, then the local OS user (whose lookup may fail). -/
def resolveSshUser (env : UserEnv) (userProvidedOpts configKeywords : ConnKeywords) :
    Except GoError String :=
  if userProvidedOpts.sshUser != "" then .ok userProvidedOpts.sshUser
  else if configKeywords.sshUser != "" then .ok configKeywords.sshUser
  else
    match env.currentUser with
    | .error e => .error e
    | .ok u => .ok u

/-- Mirrors `combineSshKeywords` (lines 695-748): merges caller-supplied
options, ssh-config pattern-matched keywords, and saved per-connection
keywords into the effective keyword set. -/
def combineSshKeywords (env : UserEnv) (userProvidedOpts configKeywords : ConnKeywords)
    (savedKeywords : Option ConnKeywords) : Except GoError ConnKeywords := do
  let sshUser ← resolveSshUser env userProvidedOpts configKeywords
  let sshHostName :=
    if configKeywords.sshHostName != "" then configKeywords.sshHostName
    else userProvidedOpts.sshHostName
  let sshPort :=
    if userProvidedOpts.sshPort != "0" && userProvidedOpts.sshPort != "22" then
      userProvidedOpts.sshPort
    else if configKeywords.sshPort != "" && configKeywords.sshPort != "22" then
      configKeywords.sshPort
    else
      "22"
  let identityFiles :=
    (match savedKeywords with
     | some saved => saved.sshIdentityFile
     | none => []) ++ userProvidedOpts.sshIdentityFile ++ configKeywords.sshIdentityFile
  pure { sshUser := sshUser
         sshHostName := sshHostName
         sshPort := sshPort
         sshIdentityFile := identityFiles
         sshBatchMode := configKeywords.sshBatchMode
         sshPubkeyAuthentication := configKeywords.sshPubkeyAuthentication
         sshPasswordAuthentication := configKeywords.sshPasswordAuthentication
         sshKbdInteractiveAuthentication := configKeywords.sshKbdInteractiveAuthentication
         sshPreferredAuthentications := configKeywords.sshPreferredAuthentications
         sshAddKeysToAgent := configKeywords.sshAddKeysToAgent
         sshIdentityAgent := configKeywords.sshIdentityAgent
         sshProxyJump := configKeywords.sshProxyJump
         sshUserKnownHostsFile := configKeywords.sshUserKnownHostsFile
         sshGlobalKnownHostsFile := configKeywords.sshGlobalKnownHostsFile }

/-! ## Public-key authentication callback (sshclient.go lines 78-205) -/

/-- Abstract content of a private-key file, classified by how the ssh
parsing functions react to it: parses unencrypted (`plain`, with a flag
for whether `NewSignerFromKey` succeeds), needs a passphrase
(`encrypted`, carrying the correct passphrase, the decrypted key and the
signer flag), or fails to parse for another reason (`garbage`). -/
inductive KeyData where
  | plain (k : String) (signerOk : Bool)
  | encrypted (pass : String) (k : String) (signerOk : Bool)
  | garbage
  deriving Repr, DecidableEq

/-- An ssh signer: agent-supplied, derived from a private key, or the
dummy RSA signer from `createDummySigner` (lines 81-92). -/
inductive Signer where
  | agent (n : Nat)
  | fromKey (k : String)
  | dummy
  deriving Repr, DecidableEq

/-- Outcome of `userinput.GetUserInput` on a text prompt: the typed text,
or an error (timeout or user cancellation). -/
inductive PromptReply where
  | text (s : String)
  | cancel (e : GoError)
  deriving Repr, DecidableEq

/-- Oracle environment for the public-key callback: per-file passphrase
prompt replies, the outcome of RSA keygen inside `createDummySigner`,
home-directory expansion and file reads for the setup loop. -/
structure PkEnv where
  passphraseAnswer : String → PromptReply
  dummyGen : Except GoError Unit
  expandHomeDir : String → Option String
  readFile : String → Option KeyData

/-- Mirrors `createDummySigner` (lines 81-92). -/
def createDummySigner (env : PkEnv) : Except GoError (List Signer) :=
  match env.dummyGen with
  | .error e => .error e
  | .ok _ => .ok [Signer.dummy]

/-- Mirrors the setup loop of `createPublicKeyCallback` (lines 106-123):
files that fail home expansion or reading are skipped; the rest are kept
in order together with their cached bytes. -/
def pkSetup (env : PkEnv) (sshIdentityFile : List String) :
    List String × List (String × KeyData) :=
  sshIdentityFile.foldl
    (fun acc identityFile =>
      match env.expandHomeDir identityFile with
      | none => acc
      | some filePath =>
        match env.readFile filePath with
        | none => acc
        | some k => (acc.1 ++ [identityFile], acc.2 ++ [(identityFile, k)]))
    ([], [])

/-- Mutable state captured by the callback closure: remaining
agent-supplied signers and remaining identity files. -/
structure PkState where
  authSockSigners : List Signer
  identityFiles : List String
  deriving Repr, DecidableEq

/-- Observable events of one callback invocation. -/
inductive PkEvent where
  | offeredAgentSigner (s : Signer)
  | poppedIdentityFile (f : String)
  | passphrasePrompt (f : String)
  | agentAdd (k : String)
  deriving Repr, DecidableEq

/-- Mirrors the per-identity-file part of the callback body (lines
144-204): parse attempt, passphrase prompt in non-batch mode, re-parse
with the supplied passphrase, optional agent registration; most failures
return a dummy signer so the library proceeds to the next candidate. -/
def pkProcessFile (env : PkEnv) (kw : ConnKeywords)
    (existingKeys : List (String × KeyData)) (agentPresent : Bool)
    (debugInfo : ConnectionDebugInfo) (identityFile : String) :
    Except GoError (List Signer) × List PkEvent :=
  match existingKeys.lookup identityFile with
  | none => (createDummySigner env, [])
  | some (.plain k signerOk) =>
    if signerOk then
      if kw.sshAddKeysToAgent && agentPresent then
        (.ok [.fromKey k], [.agentAdd k])
      else (.ok [.fromKey k], [])
    else (createDummySigner env, [])
  | some .garbage => (createDummySigner env, [])
  | some (.encrypted pass k signerOk) =>
    if kw.sshBatchMode then (createDummySigner env, [])
    else
      match env.passphraseAnswer identityFile with
      | .cancel e =>
        (.error (.connection debugInfo (.userInputCancel e)),
         [.passphrasePrompt identityFile])
      | .text t =>
        if t != pass then
          (createDummySigner env, [.passphrasePrompt identityFile])
        else if !signerOk then
          (createDummySigner env, [.passphrasePrompt identityFile])
        else if kw.sshAddKeysToAgent && agentPresent then
          (.ok [.fromKey k], [.passphrasePrompt identityFile, .agentAdd k])
        else (.ok [.fromKey k], [.passphrasePrompt identityFile])

/-- One invocation of the closure returned by `createPublicKeyCallback`
(lines 131-204): agent signers are consumed first, then identity files
are popped one at a time; an empty queue is a `ConnectionError`. -/
def pkStep (env : PkEnv) (kw : ConnKeywords)
    (existingKeys : List (String × KeyData)) (agentPresent : Bool)
    (debugInfo : ConnectionDebugInfo) (st : PkState) :
    Except GoError (List Signer) × PkState × List PkEvent :=
  match st.authSockSigners with
  | s :: restAgents =>
    (.ok [s], ⟨restAgents, st.identityFiles⟩, [.offeredAgentSigner s])
  | [] =>
    match st.identityFiles with
    | [] => (.error (.connection debugInfo .noIdentityFilesRemaining), st, [])
    | identityFile :: restFiles =>
      ((pkProcessFile env kw existingKeys agentPresent debugInfo identityFile).1,
       ⟨[], restFiles⟩,
       .poppedIdentityFile identityFile ::
         (pkProcessFile env kw existingKeys agentPresent debugInfo identityFile).2)

/-- Driver for the retryable public-key probe: invokes the callback up to
`n` times, stopping at the first error (an error from the callback stops
the library from attempting further keys, per the comment on lines
101-104). Collects results and the event trace. -/
def pkRun (env : PkEnv) (kw : ConnKeywords)
    (existingKeys : List (String × KeyData)) (agentPresent : Bool)
    (debugInfo : ConnectionDebugInfo) :
    PkState → Nat → List (Except GoError (List Signer)) × List PkEvent
  | _, 0 => ([], [])
  | st, n + 1 =>
    match (pkStep env kw existingKeys agentPresent debugInfo st).1 with
    | .error e => ([.error e], (pkStep env kw existingKeys agentPresent debugInfo st).2.2)
    | .ok s =>
      (.ok s ::
        (pkRun env kw existingKeys agentPresent debugInfo
          (pkStep env kw existingKeys agentPresent debugInfo st).2.1 n).1,
       (pkStep env kw existingKeys agentPresent debugInfo st).2.2 ++
        (pkRun env kw existingKeys agentPresent debugInfo
          (pkStep env kw existingKeys agentPresent debugInfo st).2.1 n).2)

/-- Mirrors the construction in `createPublicKeyCallback`: initial closure
state and the cached key bytes. -/
def createPublicKeyCallback (env : PkEnv) (kw : ConnKeywords)
    (authSockSignersExt : List Signer) : PkState × List (String × KeyData) :=
  let setup := pkSetup env kw.sshIdentityFile
  (⟨authSockSignersExt, setup.1⟩, setup.2)

/-- Agent signers offered, in trace order. -/
def pkAgentEvents (tr : List PkEvent) : List Signer :=
  tr.filterMap fun ev =>
    match ev with
    | .offeredAgentSigner s => some s
    | _ => none

/-- Identity files popped, in trace order. -/
def pkPoppedFiles (tr : List PkEvent) : List String :=
  tr.filterMap fun ev =>
    match ev with
    | .poppedIdentityFile f => some f
    | _ => none

/-! ## Known-hosts verification (sshclient.go lines 269-552) -/

/-- User answer to a known-hosts confirm prompt: confirmed, declined
("user selected no"), or the prompt errored (timeout / cancel). -/
inductive HkAnswer where
  | confirm
  | deny
  | cancel (e : GoError)
  deriving Repr, DecidableEq

/-- Observable events of the verifier. -/
inductive HkEvent where
  | unknownKeyPrompt (file : String)
  | missingKnownHostsPrompt (file : String)
  | wroteLine (file : String) (line : String)
  | changedKeyWarning
  deriving Repr, DecidableEq

/-- Counts interactive confirmation prompts in a verifier trace. -/
def hkPromptCount (tr : List HkEvent) : Nat :=
  tr.countP fun ev =>
    match ev with
    | .unknownKeyPrompt _ => true
    | .missingKnownHostsPrompt _ => true
    | _ => false

/-- Oracle environment for the verifier: file-system outcomes per
known-hosts file, the user's answer per file, and the behavior of the
rebuilt known-hosts callback after a successful write (lines 543-548). -/
structure HkEnv where
  mkdirOk : String → Bool
  openOk : String → Bool
  writeOk : String → Bool
  closeOk : String → Bool
  answer : String → HkAnswer
  rebuildErr : List String → Option GoError
  retryLookup : List String → String → String → Option GoError

/-- Which confirm prompt a write uses: `createUnknownKeyVerifier`
(line 318) for readable files, `createMissingKnownHostsVerifier`
(line 348) for unreadable ones. -/
inductive VerifierKind where
  | unknownKey
  | missingKnownHosts
  deriving Repr, DecidableEq

/-- Mirrors the closures from `createUnknownKeyVerifier` /
`createMissingKnownHostsVerifier` (lines 334-345, 365-376): prompt the
user; an input error propagates; a non-confirmation becomes the
"user selected no" error; otherwise the confirmed response is returned
(`true` = the `Confirm` field). -/
def runKeyVerifier (env : HkEnv) (kind : VerifierKind) (file : String) :
    Except GoError Bool × List HkEvent :=
  let ev :=
    match kind with
    | .unknownKey => HkEvent.unknownKeyPrompt file
    | .missingKnownHosts => HkEvent.missingKnownHostsPrompt file
  match env.answer file with
  | .cancel e => (.error e, [ev])
  | .deny => (.error .userSelectedNo, [ev])
  | .confirm => (.ok true, [ev])

/-- The appended known-hosts line `xknownhosts.Line([Normalize(host)],
key)`, modelled as host and key text joined by a space. -/
def knownHostsLine (hostname key : String) : String :=
  hostname ++ " " ++ key

/-- Mirrors `writeToKnownHosts` (lines 278-316) with a non-nil verifier:
directory creation and opening the file happen before the prompt; any
verifier error (decline included) is wrapped as `UserInputCancelError`;
on confirmation the line is appended. -/
def writeToKnownHosts (env : HkEnv) (knownHostsFile newLine : String)
    (kind : VerifierKind) : Except GoError Unit × List HkEvent :=
  if !env.mkdirOk knownHostsFile then (.error (.pathErr knownHostsFile), [])
  else if !env.openOk knownHostsFile then (.error (.pathErr knownHostsFile), [])
  else
    match runKeyVerifier env kind knownHostsFile with
    | (.error e, evs) => (.error (.userInputCancel e), evs)
    | (.ok confirm, evs) =>
      if !confirm then (.error (.userInputCancel .canceledByUser), evs)
      else if !env.writeOk knownHostsFile then
        (.error (.errStr "write failed"), evs)
      else if !env.closeOk knownHostsFile then
        (.error (.errStr "close failed"), evs)
      else (.ok (), evs ++ [.wroteLine knownHostsFile newLine])

/-- Outcome of one of the write loops in `waveHostKeyCallback` (lines
477-487 and 492-503): a successful write to some file, an immediate
return because of a `UserInputCancelError`, or loop exhaustion carrying
the last error. -/
inductive WriteLoopOut where
  | success (file : String)
  | canceled (e : GoError)
  | exhausted (lastErr : GoError)
  deriving Repr, DecidableEq

/-- Holds iff the outermost error is `UserInputCancelError` (the type
assertion on lines 484 and 500). -/
def GoError.isUserInputCancel : GoError → Bool
  | .userInputCancel _ => true
  | _ => false

/-- Mirrors the write loops of `waveHostKeyCallback`: try each file in
order; stop on the first successful write; return immediately on a
`UserInputCancelError`; otherwise remember the error and continue. The
accumulator starts as the placeholder error of line 476. -/
def tryWriteLoop (env : HkEnv) (hostname key : String) (kind : VerifierKind) :
    List String → GoError → WriteLoopOut × List HkEvent
  | [], lastErr => (.exhausted lastErr, [])
  | f :: rest, _ =>
    match writeToKnownHosts env f (knownHostsLine hostname key) kind with
    | (.ok _, evs) => (.success f, evs)
    | (.error e, evs) =>
      if e.isUserInputCancel then (.canceled e, evs)
      else
        let out := tryWriteLoop env hostname key kind rest e
        (out.1, evs ++ out.2)

/-- Mirrors lines 543-548: rebuild the known-hosts callback over the
(possibly updated) file list and retry the lookup once. -/
def hkAfterWrite (env : HkEnv) (files : List String) (hostname key : String) :
    Option GoError :=
  match env.rebuildErr files with
  | some e => some e
  | none => env.retryLookup files hostname key

/-- Mirrors the unknown-host branch of `waveHostKeyCallback` (lines
472-507 plus the final retry): write to a readable file, falling back to
the unreadable files (a success there makes that file the sole trust
source), then rebuild and retry. A `UserInputCancelError` in either loop
aborts immediately. -/
def unknownHostFlow (env : HkEnv) (knownHostsFiles unreadableFiles : List String)
    (hostname key : String) : Option GoError × List HkEvent :=
  match tryWriteLoop env hostname key .unknownKey knownHostsFiles .placeholderErr with
  | (.success _, evs) => (hkAfterWrite env knownHostsFiles hostname key, evs)
  | (.canceled e, evs) => (some e, evs)
  | (.exhausted lastErr, evs) =>
    match tryWriteLoop env hostname key .missingKnownHosts unreadableFiles lastErr with
    | (.success f, evs2) => (hkAfterWrite env [f] hostname key, evs ++ evs2)
    | (.canceled e, evs2) => (some e, evs ++ evs2)
    | (.exhausted e, evs2) =>
      (some (.unableToCreateKnownhostKey e), evs ++ evs2)

/-- Mirrors `waveHostKeyCallback` (lines 459-549). `basic` is the
callback built from the known-hosts database: `none` is a match, and an
error value is classified exactly as the Go type switches do (revoked
first, then non-`KeyError` errors, then `KeyError` by whether any key was
expected). -/
def waveHostKeyCallback (env : HkEnv)
    (basic : String → String → Option GoError)
    (knownHostsFiles unreadableFiles : List String)
    (hostname key : String) : Option GoError × List HkEvent :=
  match basic hostname key with
  | none => (none, [])
  | some .revoked => (some .revoked, [])
  | some (.keyErr []) =>
    unknownHostFlow env knownHostsFiles unreadableFiles hostname key
  | some (.keyErr (_ :: _)) => (some .hostKeyMismatch, [.changedKeyWarning])
  | some e => (some e, [])

/-- Modelled from the spec: lookup contract of the external known-hosts
store (github.com/skeema/knownhosts, not part of this repository),
following the TrustDecision description in the spec: a host/key pair in
the store verifies; a host present with only other keys yields a
`KeyError` carrying the expected keys; an absent host yields a
`KeyError` with an empty `Want` list. -/
def storeKeysForHost (store : List (String × String)) (hostname : String) :
    List String :=
  (store.filter (fun p => p.1 == hostname)).map (fun p => p.2)

def storeLookup (store : List (String × String)) (hostname key : String) :
    Option GoError :=
  if (storeKeysForHost store hostname).contains key then none
  else if (storeKeysForHost store hostname).isEmpty then some (.keyErr [])
  else some (.keyErr (storeKeysForHost store hostname))

/-! ## Verifier construction (sshclient.go lines 388-457) -/

/-- Result of `knownhosts.NewDB` over a file list: a working database
(its lookup callback), a path error naming the offending file, or any
other (formatting) error. -/
inductive NewDBResult where
  | ok (basic : String → String → Option GoError)
  | pathError (path : String)
  | otherError

/-- Oracle environment for `createHostKeyCallback` construction. -/
structure HkBuildEnv where
  currentUser : Except GoError String
  expandHomeDir : String → Option String
  newDB : List String → NewDBResult

/-- Mirrors lines 396-401: as root only global files are used, otherwise
user files first then global files. -/
def selectKnownHostsFiles (username : String) (kw : ConnKeywords) : List String :=
  if username == "root" then kw.sshGlobalKnownHostsFile
  else kw.sshUserKnownHostsFile ++ kw.sshGlobalKnownHostsFile

/-- What `createHostKeyCallback` hands to the verifier closure. -/
structure HostVerifierParts where
  basic : String → String → Option GoError
  knownHostsFiles : List String
  unreadableFiles : List String

/-- Mirrors the database-building loop (lines 424-457): retry without the
file a path error names, remembering it as unreadable; a removal that
does not shrink the list is an internal error; an exhausted list falls
back to a callback that reports every host as unknown. `fuel` bounds the
loop (each iteration strictly shrinks the list, so `files.length + 1`
always suffices). -/
def buildBasicCallback (env : HkBuildEnv) :
    Nat → List String → List String → Except GoError HostVerifierParts
  | 0, files, unreadable =>
    .ok ⟨fun _ _ => some (.keyErr []), files, unreadable⟩
  | fuel + 1, files, unreadable =>
    if files.isEmpty then
      .ok ⟨fun _ _ => some (.keyErr []), files, unreadable⟩
    else
      match env.newDB files with
      | .ok basic => .ok ⟨basic, files, unreadable⟩
      | .otherError => .error .knownHostsFormat
      | .pathError badFile =>
        let okFiles := files.filter (fun f => f != badFile)
        if files.length ≤ okFiles.length then
          .error (.problemFileMissing badFile)
        else buildBasicCallback env fuel okFiles (unreadable ++ [badFile])

/-- Mirrors `createHostKeyCallback` (lines 388-457): resolve the current
user, select and home-expand the known-hosts files (expansion failures
are skipped), fail outright when none remain, then build the database. -/
def createHostKeyCallback (env : HkBuildEnv) (kw : ConnKeywords) :
    Except GoError HostVerifierParts :=
  match env.currentUser with
  | .error e => .error e
  | .ok username =>
    let unexpanded := selectKnownHostsFiles username kw
    let files := unexpanded.filterMap env.expandHomeDir
    if files.isEmpty then .error .noKnownHostsFiles
    else buildBasicCallback env (files.length + 1) files []

/-! ## Prompt context policy (the `context.WithTimeout` call sites) -/

/-- The parent context a prompt timeout is derived from: the connection
cancellation context `connCtx`, or the process background context. -/
inductive CtxParent where
  | connCtx
  | background
  deriving Repr, DecidableEq

/-- A prompt call site: parent context and timeout in seconds. -/
structure PromptCtxSpec where
  parent : CtxParent
  timeoutSeconds : Nat
  deriving Repr, DecidableEq

/-- Line 179: `context.WithTimeout(connCtx, 60*time.Second)` for the
public-key passphrase prompt. -/
def publicKeyPassphrasePromptCtx : PromptCtxSpec := ⟨.connCtx, 60⟩

/-- Line 209: `context.WithTimeout(connCtx, 60*time.Second)` for the
password prompt. -/
def passwordPromptCtx : PromptCtxSpec := ⟨.connCtx, 60⟩

/-- Line 249: `context.WithTimeout(connCtx, 60*time.Second)` for each
keyboard-interactive challenge question. -/
def challengeQuestionPromptCtx : PromptCtxSpec := ⟨.connCtx, 60⟩

/-- Line 335: `context.WithTimeout(context.Background(), 60*time.Second)`
for the unknown-host confirmation prompt. -/
def unknownKeyVerifierPromptCtx : PromptCtxSpec := ⟨.background, 60⟩

/-- Line 366: `context.WithTimeout(context.Background(), 60*time.Second)`
for the missing-known-hosts confirmation prompt. -/
def missingKnownHostsVerifierPromptCtx : PromptCtxSpec := ⟨.background, 60⟩

/-- All interactive prompt call sites issued during a connection attempt. -/
def allPromptCtxs : List PromptCtxSpec :=
  [publicKeyPassphrasePromptCtx, passwordPromptCtx, challengeQuestionPromptCtx,
   unknownKeyVerifierPromptCtx, missingKnownHostsVerifierPromptCtx]

/-! ## ConnectToClient (sshclient.go lines 612-693) -/

/-- Observable events of a connection attempt: ssh-config resolution for
a host, client-config construction (authentication and trust setup), and
a network dial (direct when `via` is `none`, through the parent transport
otherwise). -/
inductive ConnEvent where
  | resolvedConfig (host : String)
  | builtClientConfig (host : String)
  | dialed (addr : String) (via : Option ClientId)
  deriving Repr, DecidableEq

/-- Holds iff the event is a network dial. -/
def ConnEvent.isDial : ConnEvent → Bool
  | .dialed _ _ => true
  | _ => false

/-- Oracle environment for `ConnectToClient`: the ssh-config keyword
lookup, the persisted per-connection settings, the current OS user, the
proxy-entry parser, client-config construction failure, and the
dial/handshake outcome of `connectInternal`. -/
structure ConnEnv where
  findSshConfigKeywords : String → Except GoError ConnKeywords
  savedConnections : String → Option ConnKeywords
  currentUser : Except GoError String
  parseOpts : String → Except GoError SSHOpts
  clientConfig : ConnKeywords → Option GoError
  dial : String → Option ClientId → Except GoError ClientId

/-- Result of one `ConnectToClient` call: the client, the returned jump
number, the error (if any) and the event trace. Mirrors the Go triple
`(*ssh.Client, int32, error)`. -/
structure ConnOut where
  client : Option ClientId
  jumpNum : Int
  err : Option GoError
  trace : List ConnEvent
  deriving Repr, DecidableEq

/-- Result of the proxy-jump loop (lines 664-682): the accumulated
current client, the updated jump number, an error and the trace. -/
structure JumpOut where
  currentClient : Option ClientId
  jumpNum : Int
  err : Option GoError
  trace : List ConnEvent
  deriving Repr, DecidableEq

/-- Mirrors lines 670-673: the overflow-guarded increment
`if jumpNum < math.MaxInt32 { jumpNum += 1 }`. -/
def bumpJumpNum (jumpNum : Int) : Int :=
  if jumpNum < maxInt32 then jumpNum + 1 else jumpNum

/-- Mirrors the proxy-jump loop (lines 664-682). `debugNextOpts` and
`debugJumpNum` are the fields of the enclosing call's `debugInfo`, whose
`CurrentClient` is updated as hops succeed while `NextOpts` and `JumpNum`
stay fixed. `connect` is the recursive `ConnectToClient` call, invoked
with empty caller keywords; its errors are returned unchanged ("do not
add a context on a recursive call", line 678). -/
def processJumps (env : ConnEnv) (debugNextOpts : SSHOpts) (debugJumpNum : Int)
    (connect : SSHOpts → Option ClientId → Int → ConnOut) :
    List String → Option ClientId → Int → JumpOut
  | [], cur, j => ⟨cur, j, none, []⟩
  | proxyName :: rest, cur, j =>
    match env.parseOpts proxyName with
    | .error e =>
      ⟨cur, debugJumpNum,
       some (.connection ⟨cur, debugNextOpts, debugJumpNum⟩ e), []⟩
    | .ok proxyOpts =>
      let out := connect proxyOpts cur (bumpJumpNum j)
      match out.err with
      | some e => ⟨out.client, out.jumpNum, some e, out.trace⟩
      | none =>
        let restOut :=
          processJumps env debugNextOpts debugJumpNum connect rest
            out.client out.jumpNum
        ⟨restOut.currentClient, restOut.jumpNum, restOut.err,
         out.trace ++ restOut.trace⟩

/-- Mirrors `ConnectToClient` (lines 634-693): depth guard, ssh-config
resolution, keyword merge, recursive proxy-jump processing, client-config
construction and the final dial. Every local failure is wrapped as a
`ConnectionError` with this hop's debug info; errors from recursive calls
propagate unchanged. `fuel` only bounds the recursion depth of the model;
the depth guard makes any fuel above the jump budget equivalent. -/
def ConnectToClient (env : ConnEnv) :
    Nat → SSHOpts → Option ClientId → Int → ConnKeywords → ConnOut
  | 0, opts, cur, j, _ =>
    ⟨none, j, some (.connection ⟨cur, opts, j⟩ (.errStr "model out of fuel")), []⟩
  | fuel + 1, opts, cur, j, connFlags =>
    let debug0 : ConnectionDebugInfo := ⟨cur, opts, j⟩
    if j > SshProxyJumpMaxDepth then
      ⟨none, j, some (.connection debug0 (.depthExceeded j SshProxyJumpMaxDepth)), []⟩
    else
      match env.findSshConfigKeywords opts.sshHost with
      | .error e =>
        ⟨none, j, some (.connection debug0 e), [.resolvedConfig opts.sshHost]⟩
      | .ok sshConfigKeywords =>
        let connFlags :=
          { connFlags with
            sshUser := opts.sshUser
            sshHostName := opts.sshHost
            sshPort := toString opts.sshPort }
        let savedKeywords := (env.savedConnections opts.toRawName).getD {}
        match combineSshKeywords ⟨env.currentUser⟩ connFlags sshConfigKeywords
            (some savedKeywords) with
        | .error e =>
          ⟨none, j, some (.connection debug0 e), [.resolvedConfig opts.sshHost]⟩
        | .ok sshKeywords =>
          let jumpOut :=
            processJumps env opts j
              (fun o c jn => ConnectToClient env fuel o c jn {})
              sshKeywords.sshProxyJump cur j
          match jumpOut.err with
          | some e =>
            ⟨none, jumpOut.jumpNum, some e,
             .resolvedConfig opts.sshHost :: jumpOut.trace⟩
          | none =>
            match env.clientConfig sshKeywords with
            | some e =>
              ⟨none, j, some (.connection ⟨jumpOut.currentClient, opts, j⟩ e),
               .resolvedConfig opts.sshHost ::
                 (jumpOut.trace ++ [.builtClientConfig opts.sshHost])⟩
            | none =>
              let networkAddr :=
                sshKeywords.sshHostName ++ ":" ++ sshKeywords.sshPort
              match env.dial networkAddr jumpOut.currentClient with
              | .error e =>
                ⟨none, j, some (.connection ⟨jumpOut.currentClient, opts, j⟩ e),
                 .resolvedConfig opts.sshHost ::
                   (jumpOut.trace ++
                     [.builtClientConfig opts.sshHost,
                      .dialed networkAddr jumpOut.currentClient])⟩
              | .ok client =>
                ⟨some client, j, none,
                 .resolvedConfig opts.sshHost ::
                   (jumpOut.trace ++
                     [.builtClientConfig opts.sshHost,
                      .dialed networkAddr jumpOut.currentClient])⟩

/-! ## Concrete environments used by witnesses and counterexamples -/

/-- A benign connection environment: every oracle succeeds trivially. -/
def trivialConnEnv : ConnEnv :=
  { findSshConfigKeywords := fun _ => .ok {}
    savedConnections := fun _ => none
    currentUser := .ok "alice"
    parseOpts := fun s => .ok { sshHost := s }
    clientConfig := fun _ => none
    dial := fun _ _ => .ok 0 }

/-! ## Claim theorems -/

/-- C4: For every configuration merge performed by `combineSshKeywords`,
the effective port equals the caller-supplied port when it is neither the
unset sentinel "0" nor the default "22"; otherwise it equals the
config-file port when that is set and not the default; otherwise it is
22. In particular a caller port of "0" or "22" never overrides a
non-default config-file port. -/
theorem claim_C4 (env : UserEnv) (u c : ConnKeywords) (s : Option ConnKeywords)
    (kw : ConnKeywords) (h : combineSshKeywords env u c s = .ok kw) :
    (u.sshPort ≠ "0" → u.sshPort ≠ "22" → kw.sshPort = u.sshPort) ∧
    ((u.sshPort = "0" ∨ u.sshPort = "22") → c.sshPort ≠ "" → c.sshPort ≠ "22" →
      kw.sshPort = c.sshPort) ∧
    ((u.sshPort = "0" ∨ u.sshPort = "22") → (c.sshPort = "" ∨ c.sshPort = "22") →
      kw.sshPort = "22") := by
  cases hu : resolveSshUser env u c with
  | error e => simp [combineSshKeywords, hu] at h
  | ok user =>
    simp only [combineSshKeywords, hu, bind, Except.bind, pure, Except.pure] at h
    cases h
    refine ⟨?_, ?_, ?_⟩
    · intro h0 h22
      simp [h0, h22]
    · intro hu0 hc hc22
      rcases hu0 with h | h <;> simp [h, hc, hc22]
    · intro hu0 hc
      rcases hu0 with h | h <;> rcases hc with h2 | h2 <;> simp [h, h2]

/-- Witness for C4 at a concrete merge: a caller port of "0" does not
override the config port "2222". -/
theorem claim_C4_witness :
    let u : ConnKeywords := { sshPort := "0" }
    let c : ConnKeywords := { sshPort := "2222" }
    ∀ kw, combineSshKeywords ⟨.ok "alice"⟩ u c none = .ok kw →
      kw.sshPort = "2222" := by
  intro u c kw h
  exact (claim_C4 ⟨.ok "alice"⟩ u c none kw h).2.1 (Or.inl rfl)
    (by decide) (by decide)

/-- C9: when the selected known-hosts file list (global-scope only for
root, user-scope then global-scope otherwise) is empty after
home-directory expansion, `createHostKeyCallback` fails to construct a
verifier and returns an error; it never returns a verifier. -/
theorem claim_C9 (env : HkBuildEnv) (kw : ConnKeywords) (username : String)
    (hu : env.currentUser = .ok username)
    (hempty : (selectKnownHostsFiles username kw).filterMap env.expandHomeDir = []) :
    createHostKeyCallback env kw = .error .noKnownHostsFiles ∧
    ∀ parts, createHostKeyCallback env kw ≠ .ok parts := by
  have h1 : createHostKeyCallback env kw = .error .noKnownHostsFiles := by
    unfold createHostKeyCallback
    rw [hu]
    simp [hempty]
  refine ⟨h1, fun parts hcontra => ?_⟩
  rw [h1] at hcontra
  cases hcontra

/-- Witness for C9: no known-hosts files configured at all. -/
theorem claim_C9_witness :
    createHostKeyCallback
        ⟨.ok "alice", fun s => some s, fun _ => .otherError⟩ {} =
      .error .noKnownHostsFiles := by
  exact (claim_C9 ⟨.ok "alice", fun s => some s, fun _ => .otherError⟩ {}
    "alice" rfl rfl).1

/-- C7 counterexample: the claim says every interactive prompt uses a
timeout context derived from the connection context; but the unknown-host
and missing-known-hosts confirmation prompts (lines 335 and 366) derive
their timeout from `context.Background()`, so the claim is false for the
recorded prompt call sites. -/
theorem claim_C7_counterexample :
    (allPromptCtxs.all fun p => p.parent == CtxParent.connCtx) = false := by
  decide

/-- C7 as amended: every prompt has the same bounded 60-second timeout;
the authentication prompts (public-key passphrase, keyboard-interactive,
password) derive their context from the connection context, but the
unknown-host and missing-known-hosts confirmation prompts derive theirs
from the background context and are therefore not unblocked by cancelling
the connection context. -/
theorem claim_C7 :
    (allPromptCtxs.all fun p => p.timeoutSeconds == 60) = true ∧
    publicKeyPassphrasePromptCtx.parent = CtxParent.connCtx ∧
    passwordPromptCtx.parent = CtxParent.connCtx ∧
    challengeQuestionPromptCtx.parent = CtxParent.connCtx ∧
    unknownKeyVerifierPromptCtx.parent = CtxParent.background ∧
    missingKnownHostsVerifierPromptCtx.parent = CtxParent.background := by
  decide

/-- C10: the jump counter never wraps around int32: it is incremented
only while strictly below `math.MaxInt32` (by exactly one), saturates at
`MaxInt32`, never exceeds `MaxInt32`, and a saturated counter still trips
the depth-exceeded check on the recursive call since
`SshProxyJumpMaxDepth` is far below `MaxInt32`. -/
theorem claim_C10 :
    (∀ j : Int, j < maxInt32 → bumpJumpNum j = j + 1) ∧
    bumpJumpNum maxInt32 = maxInt32 ∧
    (∀ j : Int, j ≤ maxInt32 → bumpJumpNum j ≤ maxInt32) ∧
    SshProxyJumpMaxDepth < maxInt32 ∧
    (∀ (env : ConnEnv) (fuel : Nat) (opts : SSHOpts) (cur : Option ClientId)
        (cf : ConnKeywords),
      (ConnectToClient env (fuel + 1) opts cur maxInt32 cf).err =
        some (.connection ⟨cur, opts, maxInt32⟩
          (.depthExceeded maxInt32 SshProxyJumpMaxDepth))) := by
  refine ⟨fun j hj => by simp [bumpJumpNum, hj], by simp [bumpJumpNum],
    fun j hj => ?_, by decide, fun env fuel opts cur cf => ?_⟩
  · unfold bumpJumpNum
    split <;> omega
  · have hgt : maxInt32 > SshProxyJumpMaxDepth := by decide
    simp [ConnectToClient, hgt]

/-- Witness for C10 at concrete inputs. -/
theorem claim_C10_witness :
    bumpJumpNum 5 = 6 ∧ bumpJumpNum maxInt32 ≤ maxInt32 ∧
    (ConnectToClient trivialConnEnv 1 { sshHost := "h" } none maxInt32 {}).err =
      some (.connection ⟨none, { sshHost := "h" }, maxInt32⟩
        (.depthExceeded maxInt32 SshProxyJumpMaxDepth)) :=
  ⟨claim_C10.1 5 (by decide), claim_C10.2.2.1 maxInt32 (by decide),
   claim_C10.2.2.2.2 trivialConnEnv 0 { sshHost := "h" } none {}⟩

/-- C1: for every host whose key is in the trust store but mismatches the
presented key (the store holds `(host, k1)` and the handshake presents
`k2`, which the store does not hold for that host), the verifier built by
`createHostKeyCallback` returns the fatal mismatch error and issues zero
interactive prompts — there is no interactive override path. -/
theorem claim_C1 (env : HkEnv) (store : List (String × String))
    (files unread : List String) (host k1 k2 : String)
    (hk1 : (host, k1) ∈ store)
    (hk2 : (storeKeysForHost store host).contains k2 = false) :
    (waveHostKeyCallback env (storeLookup store) files unread host k2).1 =
      some .hostKeyMismatch ∧
    hkPromptCount
      (waveHostKeyCallback env (storeLookup store) files unread host k2).2 = 0 := by
  have hmem : k1 ∈ storeKeysForHost store host := by
    refine List.mem_map.mpr ⟨(host, k1), ?_, rfl⟩
    exact List.mem_filter.mpr ⟨hk1, by simp⟩
  cases hcase : storeKeysForHost store host with
  | nil => rw [hcase] at hmem; cases hmem
  | cons w ws =>
    rw [hcase] at hk2
    have hlookup : storeLookup store host k2 = some (.keyErr (w :: ws)) := by
      simp only [storeLookup, hcase]
      rw [hk2]
      simp
    rw [waveHostKeyCallback, hlookup]
    exact ⟨rfl, rfl⟩

/-- Witness for C1: store knows hostA with key K1, handshake presents K2. -/
theorem claim_C1_witness :
    (waveHostKeyCallback
        ⟨fun _ => true, fun _ => true, fun _ => true, fun _ => true,
         fun _ => .confirm, fun _ => none, fun _ _ _ => none⟩
        (storeLookup [("hostA", "K1")]) ["f1"] [] "hostA" "K2").1 =
      some .hostKeyMismatch := by
  exact (claim_C1
    ⟨fun _ => true, fun _ => true, fun _ => true, fun _ => true,
     fun _ => .confirm, fun _ => none, fun _ _ _ => none⟩
    [("hostA", "K1")] ["f1"] [] "hostA" "K1" "K2" (by decide) (by decide)).1

/-- The ssh-config environment for the C2 chain scenario: each of the
hosts h0..h10 proxy-jumps to the next host, building a chain of
`SshProxyJumpMaxDepth + 1` jump edges. -/
def chainNext : String → List String
  | "h0" => ["h1"]
  | "h1" => ["h2"]
  | "h2" => ["h3"]
  | "h3" => ["h4"]
  | "h4" => ["h5"]
  | "h5" => ["h6"]
  | "h6" => ["h7"]
  | "h7" => ["h8"]
  | "h8" => ["h9"]
  | "h9" => ["h10"]
  | "h10" => ["h11"]
  | _ => []

/-- Connection environment realizing the C2 chain scenario. -/
def chainConnEnv : ConnEnv :=
  { findSshConfigKeywords := fun h => .ok { sshProxyJump := chainNext h }
    savedConnections := fun _ => none
    currentUser := .ok "alice"
    parseOpts := fun s => .ok { sshHost := s }
    clientConfig := fun _ => none
    dial := fun _ _ => .ok 0 }

/-- C2: a call with `jumpNum` above `SshProxyJumpMaxDepth` fails with the
depth-exceeded error and an empty event trace — no config resolution, no
client-config (authentication/trust) construction and no dial happen for
that hop; consequently, on a proxy-jump chain of length
`SshProxyJumpMaxDepth + 1`, the connect fails with the depth-exceeded
error and the whole trace contains no network dial at all (in particular
none on the final hop). -/
theorem claim_C2 :
    (∀ (env : ConnEnv) (fuel : Nat) (opts : SSHOpts) (cur : Option ClientId)
        (j : Int) (cf : ConnKeywords), j > SshProxyJumpMaxDepth →
      ConnectToClient env (fuel + 1) opts cur j cf =
        ⟨none, j,
         some (.connection ⟨cur, opts, j⟩ (.depthExceeded j SshProxyJumpMaxDepth)),
         []⟩) ∧
    ((ConnectToClient chainConnEnv 20 { sshHost := "h0" } none 0 {}).err =
        some (.connection ⟨none, { sshHost := "h11" }, 11⟩
          (.depthExceeded 11 SshProxyJumpMaxDepth)) ∧
     ((ConnectToClient chainConnEnv 20 { sshHost := "h0" } none 0 {}).trace.all
        fun ev => !ev.isDial) = true) := by
  constructor
  · intro env fuel opts cur j cf hj
    simp [ConnectToClient, hj]
  · constructor
    · decide
    · decide

/-- Witness for C2 at a concrete over-depth call. -/
theorem claim_C2_witness :
    ConnectToClient trivialConnEnv 3 { sshHost := "h" } none 11 {} =
      ⟨none, 11,
       some (.connection ⟨none, { sshHost := "h" }, 11⟩
         (.depthExceeded 11 SshProxyJumpMaxDepth)), []⟩ :=
  claim_C2.1 trivialConnEnv 2 { sshHost := "h" } none 11 {} (by decide)

/-- Helper for C8: if every error the `connect` argument produces is a
`ConnectionError`, so is every error of the proxy-jump loop. -/
theorem processJumps_err_isConnection
    (env : ConnEnv) (dOpts : SSHOpts) (dJ : Int)
    (connect : SSHOpts → Option ClientId → Int → ConnOut)
    (hconnect : ∀ o c jn e, (connect o c jn).err = some e →
      e.isConnection = true) :
    ∀ (jumps : List String) (cur : Option ClientId) (j : Int) (e : GoError),
      (processJumps env dOpts dJ connect jumps cur j).err = some e →
      e.isConnection = true := by
  intro jumps
  induction jumps with
  | nil => intro cur j e h; simp [processJumps] at h
  | cons name rest ih =>
    intro cur j e h
    unfold processJumps at h
    split at h
    · simp at h
      rw [← h]
      rfl
    · dsimp only at h
      split at h
      · rename_i hout
        simp at h
        subst h
        exact hconnect _ _ _ _ hout
      · dsimp only at h
        exact ih _ _ _ h

/-- Helper for C8: every error `ConnectToClient` returns is a
`ConnectionError` (it carries a hop's debug context: current transport,
attempted next-hop options, jump depth). -/
theorem connectToClient_err_isConnection (env : ConnEnv) :
    ∀ (fuel : Nat) (opts : SSHOpts) (cur : Option ClientId) (j : Int)
      (cf : ConnKeywords) (e : GoError),
      (ConnectToClient env fuel opts cur j cf).err = some e →
      e.isConnection = true := by
  intro fuel
  induction fuel with
  | zero =>
    intro opts cur j cf e h
    simp [ConnectToClient] at h
    rw [← h]
    rfl
  | succ fuel ih =>
    intro opts cur j cf e h
    unfold ConnectToClient at h
    try dsimp only at h
    split at h
    · simp at h
      rw [← h]
      rfl
    · split at h
      · simp at h
        rw [← h]
        rfl
      · split at h
        · simp at h
          rw [← h]
          rfl
        · split at h
          · rename_i hjump
            simp at h
            subst h
            exact processJumps_err_isConnection env opts j _
              (fun o c jn e' h' => ih o c jn {} e' h') _ _ _ _ hjump
          · split at h
            · simp at h
              rw [← h]
              rfl
            · split at h
              · simp at h
                rw [← h]
                rfl
              · simp at h

/-- C8: every error returned by `ConnectToClient` is a `ConnectionError`
wrapping the failing hop's debug context (current transport, attempted
next-hop options, jump depth); and an error from a recursive proxy-jump
call — a user cancellation included — is propagated by the jump loop
verbatim, with no rewrapping or reinterpretation. -/
theorem claim_C8 :
    (∀ (env : ConnEnv) (fuel : Nat) (opts : SSHOpts) (cur : Option ClientId)
        (j : Int) (cf : ConnKeywords) (e : GoError),
      (ConnectToClient env fuel opts cur j cf).err = some e →
      e.isConnection = true) ∧
    (∀ (env : ConnEnv) (dOpts : SSHOpts) (dJ : Int)
        (connect : SSHOpts → Option ClientId → Int → ConnOut)
        (name : String) (rest : List String) (cur : Option ClientId) (j : Int)
        (proxyOpts : SSHOpts) (e : GoError),
      env.parseOpts name = .ok proxyOpts →
      (connect proxyOpts cur (bumpJumpNum j)).err = some e →
      (processJumps env dOpts dJ connect (name :: rest) cur j).err = some e) := by
  refine ⟨fun env fuel => connectToClient_err_isConnection env fuel,
    fun env dOpts dJ connect name rest cur j proxyOpts e hp he => ?_⟩
  unfold processJumps
  rw [hp]
  dsimp only
  rw [he]

/-- Witness for C8 at concrete inputs: a config-resolution failure is
returned as a `ConnectionError`, and a cancellation error from a
recursive call is propagated verbatim by the jump loop. -/
theorem claim_C8_witness :
    GoError.isConnection
      (.connection ⟨none, { sshHost := "h" }, 0⟩ (.errStr "boom")) = true ∧
    (processJumps trivialConnEnv { sshHost := "h" } 0
        (fun _ _ _ =>
          ⟨none, 1,
           some (.connection ⟨none, { sshHost := "p" }, 1⟩
             (.userInputCancel (.errStr "canceled"))), []⟩)
        ["p"] none 0).err =
      some (.connection ⟨none, { sshHost := "p" }, 1⟩
        (.userInputCancel (.errStr "canceled"))) := by
  constructor
  · exact claim_C8.1
      { trivialConnEnv with findSshConfigKeywords := fun _ => .error (.errStr "boom") }
      1 { sshHost := "h" } none 0 {} _ (by decide)
  · exact claim_C8.2 trivialConnEnv { sshHost := "h" } 0 _ "p" [] none 0
      { sshHost := "p" } _ rfl rfl

/-- A known-hosts environment where every file operation succeeds and the
user declines the prompt for "f1" but would confirm any other. -/
def hkDenyEnv : HkEnv :=
  { mkdirOk := fun _ => true
    openOk := fun _ => true
    writeOk := fun _ => true
    closeOk := fun _ => true
    answer := fun f => if f == "f1" then .deny else .confirm
    rebuildErr := fun _ => none
    retryLookup := fun _ _ _ => none }

/-- A known-hosts environment where every file operation succeeds and the
user confirms every prompt. -/
def hkConfirmEnv : HkEnv :=
  { mkdirOk := fun _ => true
    openOk := fun _ => true
    writeOk := fun _ => true
    closeOk := fun _ => true
    answer := fun _ => .confirm
    rebuildErr := fun _ => none
    retryLookup := fun _ _ _ => none }

/-- C3 counterexample: the claim says that when the user rejects
(declines) one file's prompt the verifier moves on to the next file's
prompt. In the code, `createUnknownKeyVerifier` turns a decline into the
"user selected no" error, `writeToKnownHosts` wraps any verifier error as
`UserInputCancelError`, and the write loop returns immediately on that
error type — so with two readable files and a decline on the first, the
second file is never prompted and verification aborts with the
cancellation error. -/
theorem claim_C3_counterexample :
    ((waveHostKeyCallback hkDenyEnv (fun _ _ => some (.keyErr []))
        ["f1", "f2"] [] "hostA" "K2").2.contains (.unknownKeyPrompt "f2")
      = false) ∧
    waveHostKeyCallback hkDenyEnv (fun _ _ => some (.keyErr []))
        ["f1", "f2"] [] "hostA" "K2" =
      (some (.userInputCancel .userSelectedNo), [.unknownKeyPrompt "f1"]) := by
  decide

/-- C3 as amended: when the host is absent from every store, the verifier
prompts per readable file in order; (a) on confirmation it appends the
host-key line to that file and stops prompting (proceeding to the rebuild
and final retry); (b) on a decline it aborts immediately with the
`UserInputCancelError` wrapping "user selected no" — it does not move to
the next file; (c) on an explicit cancellation it aborts immediately with
the `UserInputCancelError` wrapping that error; (d) only a file the
engine cannot open falls through to the next file, without a prompt. -/
theorem claim_C3 (env : HkEnv) (basic : String → String → Option GoError)
    (f : String) (rest unread : List String) (host key : String)
    (hbasic : basic host key = some (.keyErr []))
    (hmkdir : env.mkdirOk f = true) (hopen : env.openOk f = true) :
    (env.answer f = .confirm → env.writeOk f = true → env.closeOk f = true →
      waveHostKeyCallback env basic (f :: rest) unread host key =
        (hkAfterWrite env (f :: rest) host key,
         [.unknownKeyPrompt f, .wroteLine f (knownHostsLine host key)])) ∧
    (env.answer f = .deny →
      waveHostKeyCallback env basic (f :: rest) unread host key =
        (some (.userInputCancel .userSelectedNo), [.unknownKeyPrompt f])) ∧
    (∀ e, env.answer f = .cancel e →
      waveHostKeyCallback env basic (f :: rest) unread host key =
        (some (.userInputCancel e), [.unknownKeyPrompt f])) ∧
    (∀ g, env.mkdirOk g = true → env.openOk g = false →
      tryWriteLoop env host key .unknownKey (g :: rest) .placeholderErr =
        tryWriteLoop env host key .unknownKey rest (.pathErr g)) := by
  refine ⟨fun hans hw hc => ?_, fun hans => ?_, fun e hans => ?_,
    fun g hgmk hgop => ?_⟩
  · simp [waveHostKeyCallback, hbasic, unknownHostFlow, tryWriteLoop,
      writeToKnownHosts, runKeyVerifier, hans, hmkdir, hopen, hw, hc]
  · simp [waveHostKeyCallback, hbasic, unknownHostFlow, tryWriteLoop,
      writeToKnownHosts, runKeyVerifier, hans, hmkdir, hopen,
      GoError.isUserInputCancel]
  · simp [waveHostKeyCallback, hbasic, unknownHostFlow, tryWriteLoop,
      writeToKnownHosts, runKeyVerifier, hans, hmkdir, hopen,
      GoError.isUserInputCancel]
  · simp [tryWriteLoop, writeToKnownHosts, hgmk, hgop,
      GoError.isUserInputCancel]

/-- Witness for C3 (amended) on the confirmation branch at a concrete
input. -/
theorem claim_C3_witness :
    waveHostKeyCallback hkConfirmEnv (fun _ _ => some (.keyErr []))
        ["f1", "f2"] [] "hostA" "K2" =
      (hkAfterWrite hkConfirmEnv ["f1", "f2"] "hostA" "K2",
       [.unknownKeyPrompt "f1",
        .wroteLine "f1" (knownHostsLine "hostA" "K2")]) :=
  (claim_C3 hkConfirmEnv (fun _ _ => some (.keyErr [])) "f1" ["f2"] []
    "hostA" "K2" rfl rfl rfl).1 rfl rfl rfl

theorem pkAgentEvents_append (l₁ l₂ : List PkEvent) :
    pkAgentEvents (l₁ ++ l₂) = pkAgentEvents l₁ ++ pkAgentEvents l₂ := by
  simp [pkAgentEvents]

theorem pkPoppedFiles_append (l₁ l₂ : List PkEvent) :
    pkPoppedFiles (l₁ ++ l₂) = pkPoppedFiles l₁ ++ pkPoppedFiles l₂ := by
  simp [pkPoppedFiles]

theorem pkAgentEvents_cons_pop (f : String) (l : List PkEvent) :
    pkAgentEvents (.poppedIdentityFile f :: l) = pkAgentEvents l := by
  simp [pkAgentEvents]

theorem pkPoppedFiles_cons_pop (f : String) (l : List PkEvent) :
    pkPoppedFiles (.poppedIdentityFile f :: l) = f :: pkPoppedFiles l := by
  simp [pkPoppedFiles]

/-- Helper: the per-file processing emits no agent-offer and no file-pop
events (only passphrase prompts and agent registrations). -/
theorem pkProcessFile_events (env : PkEnv) (kw : ConnKeywords)
    (ek : List (String × KeyData)) (ap : Bool) (dbg : ConnectionDebugInfo)
    (f : String) :
    pkAgentEvents (pkProcessFile env kw ek ap dbg f).2 = [] ∧
    pkPoppedFiles (pkProcessFile env kw ek ap dbg f).2 = [] := by
  unfold pkProcessFile
  split
  · simp [pkAgentEvents, pkPoppedFiles]
  · split <;> [skip; simp [pkAgentEvents, pkPoppedFiles]]
    split <;> simp [pkAgentEvents, pkPoppedFiles]
  · simp [pkAgentEvents, pkPoppedFiles]
  · split
    · simp [pkAgentEvents, pkPoppedFiles]
    · split
      · simp [pkAgentEvents, pkPoppedFiles]
      · split <;> [skip; split <;> [skip; split]] <;>
          simp [pkAgentEvents, pkPoppedFiles]

/-- Helper for C5: over any run of the public-key probe from state
`⟨A, F⟩`, the trace is the agent signers taken in order (a prefix of `A`)
followed by a tail with no agent events whose popped files are a prefix
of the queue `F`; any non-agent activity happens only after the agent
list is exhausted. -/
theorem pkRun_trace_spec (env : PkEnv) (kw : ConnKeywords)
    (ek : List (String × KeyData)) (ap : Bool) (dbg : ConnectionDebugInfo) :
    ∀ (n : Nat) (A : List Signer) (F : List String),
      ∃ k m tr₂,
        k ≤ A.length ∧ m ≤ F.length ∧
        (pkRun env kw ek ap dbg ⟨A, F⟩ n).2 =
          (A.take k).map PkEvent.offeredAgentSigner ++ tr₂ ∧
        pkAgentEvents tr₂ = [] ∧
        pkPoppedFiles tr₂ = F.take m ∧
        (tr₂ ≠ [] → k = A.length) := by
  intro n
  induction n with
  | zero =>
    intro A F
    exact ⟨0, 0, [], Nat.zero_le _, Nat.zero_le _, by simp [pkRun],
      rfl, by simp [pkPoppedFiles], fun h => absurd rfl h⟩
  | succ n ih =>
    intro A F
    cases A with
    | cons a A2 =>
      obtain ⟨k, m, tr₂, hk, hm, htr, hag, hpop, himp⟩ := ih A2 F
      refine ⟨k + 1, m, tr₂, by simpa using hk, hm, ?_, hag, hpop,
        fun h => by simpa using himp h⟩
      show (pkRun env kw ek ap dbg ⟨a :: A2, F⟩ (n + 1)).2 = _
      have hstep : pkRun env kw ek ap dbg ⟨a :: A2, F⟩ (n + 1) =
          (.ok [a] :: (pkRun env kw ek ap dbg ⟨A2, F⟩ n).1,
           [.offeredAgentSigner a] ++ (pkRun env kw ek ap dbg ⟨A2, F⟩ n).2) := by
        rfl
      rw [hstep]
      simp [htr]
    | nil =>
      cases F with
      | nil =>
        exact ⟨0, 0, [], Nat.zero_le _, Nat.zero_le _, by rfl,
          rfl, by simp [pkPoppedFiles], fun h => absurd rfl h⟩
      | cons f F2 =>
        obtain ⟨hag0, hpop0⟩ := pkProcessFile_events env kw ek ap dbg f
        cases hr : (pkProcessFile env kw ek ap dbg f).1 with
        | error e =>
          have hstep : pkRun env kw ek ap dbg ⟨[], f :: F2⟩ (n + 1) =
              ([.error e],
               .poppedIdentityFile f :: (pkProcessFile env kw ek ap dbg f).2) := by
            unfold pkRun
            dsimp only [pkStep]
            rw [hr]
          refine ⟨0, 1, .poppedIdentityFile f :: (pkProcessFile env kw ek ap dbg f).2,
            Nat.zero_le _, by simp, ?_, ?_, ?_, fun _ => rfl⟩
          · rw [hstep]
            simp
          · simp [pkAgentEvents] at hag0 ⊢
            exact hag0
          · simp [pkPoppedFiles] at hpop0 ⊢
            exact hpop0
        | ok s =>
          obtain ⟨k, m, tr₂, hk, hm, htr, hag, hpop, _⟩ := ih [] F2
          have hk0 : k = 0 := Nat.le_zero.mp hk
          subst hk0
          simp only [List.take_zero, List.map_nil, List.nil_append] at htr
          have hstep : pkRun env kw ek ap dbg ⟨[], f :: F2⟩ (n + 1) =
              (.ok s :: (pkRun env kw ek ap dbg ⟨[], F2⟩ n).1,
               (.poppedIdentityFile f :: (pkProcessFile env kw ek ap dbg f).2) ++
                 (pkRun env kw ek ap dbg ⟨[], F2⟩ n).2) := by
            conv_lhs => rw [pkRun]
            dsimp only [pkStep]
            rw [hr]
          refine ⟨0, m + 1,
            (.poppedIdentityFile f :: (pkProcessFile env kw ek ap dbg f).2) ++
              (pkRun env kw ek ap dbg ⟨[], F2⟩ n).2,
            Nat.zero_le _, by simpa using hm, ?_, ?_, ?_, fun _ => rfl⟩
          · rw [hstep]
            simp
          · rw [htr, pkAgentEvents_append, pkAgentEvents_cons_pop, hag0, hag]
            rfl
          · rw [htr, pkPoppedFiles_append, pkPoppedFiles_cons_pop, hpop0, hpop]
            simp

/-- C5: in every sequence of invocations of the public-key signer
callback, all agent-supplied signers are offered first, in the order the
agent returned them (a prefix of the agent list), strictly before any
identity file is popped; the popped identity files form a prefix of the
candidate queue, so each queue entry is popped and offered at most once
per connection attempt. -/
theorem claim_C5 (env : PkEnv) (kw : ConnKeywords)
    (ek : List (String × KeyData)) (ap : Bool) (dbg : ConnectionDebugInfo)
    (n : Nat) (A : List Signer) (F : List String) :
    ∃ k m tr₂,
      k ≤ A.length ∧ m ≤ F.length ∧
      (pkRun env kw ek ap dbg ⟨A, F⟩ n).2 =
        (A.take k).map PkEvent.offeredAgentSigner ++ tr₂ ∧
      pkAgentEvents tr₂ = [] ∧
      pkPoppedFiles tr₂ = F.take m ∧
      (tr₂ ≠ [] → k = A.length) :=
  pkRun_trace_spec env kw ek ap dbg n A F

/-- A benign public-key environment for witnesses. -/
def pkWitnessEnv : PkEnv :=
  { passphraseAnswer := fun _ => .text "pw"
    dummyGen := .ok ()
    expandHomeDir := fun s => some s
    readFile := fun _ => some .garbage }

/-- Witness for C5 at a concrete run: two agent signers and one identity
file. -/
theorem claim_C5_witness :
    ∃ k m tr₂,
      k ≤ ([Signer.agent 0, Signer.agent 1]).length ∧
      m ≤ (["id_rsa"] : List String).length ∧
      (pkRun pkWitnessEnv {} [] true ⟨none, { sshHost := "h" }, 0⟩
        ⟨[Signer.agent 0, Signer.agent 1], ["id_rsa"]⟩ 4).2 =
        (([Signer.agent 0, Signer.agent 1]).take k).map
          PkEvent.offeredAgentSigner ++ tr₂ ∧
      pkAgentEvents tr₂ = [] ∧
      pkPoppedFiles tr₂ = (["id_rsa"] : List String).take m ∧
      (tr₂ ≠ [] → k = ([Signer.agent 0, Signer.agent 1]).length) :=
  claim_C5 pkWitnessEnv {} [] true ⟨none, { sshHost := "h" }, 0⟩ 4
    [Signer.agent 0, Signer.agent 1] ["id_rsa"]

/-- C6: with batch mode off, an encrypted identity file `f` for which the
human supplies a wrong passphrase, and a next encrypted file `g` whose
prompt the human cancels, the probe returns the dummy signer for `f`
(exhausting it) and then stops with a `ConnectionError` wrapping
`UserInputCancelError` — the user-cancelled error, not the
credential-exhausted "no identity files remaining" error — and pops no
further identity file after the cancellation, no matter how many
candidates remain or how many more invocations the driver would allow. -/
theorem claim_C6 (env : PkEnv) (kw : ConnKeywords)
    (ek : List (String × KeyData)) (ap : Bool) (dbg : ConnectionDebugInfo)
    (f g : String) (rest : List String) (n : Nat)
    (pf kf : String) (bf : Bool) (pg kg : String) (bg : Bool)
    (w : String) (e : GoError)
    (hbatch : kw.sshBatchMode = false)
    (hf : ek.lookup f = some (.encrypted pf kf bf))
    (hg : ek.lookup g = some (.encrypted pg kg bg))
    (hansf : env.passphraseAnswer f = .text w) (hw : w ≠ pf)
    (hansg : env.passphraseAnswer g = .cancel e)
    (hdummy : env.dummyGen = .ok ()) :
    pkRun env kw ek ap dbg ⟨[], f :: g :: rest⟩ (n + 2) =
      ([.ok [.dummy], .error (.connection dbg (.userInputCancel e))],
       [.poppedIdentityFile f, .passphrasePrompt f,
        .poppedIdentityFile g, .passphrasePrompt g]) := by
  have hwb : (w != pf) = true := by
    simp [hw]
  have hstep1 : pkRun env kw ek ap dbg ⟨[], f :: g :: rest⟩ (n + 2) =
      (.ok [.dummy] :: (pkRun env kw ek ap dbg ⟨[], g :: rest⟩ (n + 1)).1,
       [.poppedIdentityFile f, .passphrasePrompt f] ++
         (pkRun env kw ek ap dbg ⟨[], g :: rest⟩ (n + 1)).2) := by
    conv_lhs => rw [pkRun]
    dsimp only [pkStep]
    simp [pkProcessFile, hf, hbatch, hansf, hwb, createDummySigner, hdummy]
  have hstep2 : pkRun env kw ek ap dbg ⟨[], g :: rest⟩ (n + 1) =
      ([.error (.connection dbg (.userInputCancel e))],
       [.poppedIdentityFile g, .passphrasePrompt g]) := by
    conv_lhs => rw [pkRun]
    dsimp only [pkStep]
    simp [pkProcessFile, hg, hbatch, hansg]
  rw [hstep1, hstep2]
  rfl

/-- Witness for C6: concrete environment with three identity files; only
the first two are ever popped. -/
theorem claim_C6_witness :
    pkRun
        { passphraseAnswer := fun q =>
            if q == "id_rsa" then .text "wrong" else .cancel (.errStr "canceled")
          dummyGen := .ok ()
          expandHomeDir := fun s => some s
          readFile := fun _ => none }
        {} [("id_rsa", .encrypted "secret" "K1" true),
            ("id_b", .encrypted "s2" "K2" true),
            ("id_c", .encrypted "s3" "K3" true)]
        false ⟨none, { sshHost := "h" }, 0⟩
        ⟨[], ["id_rsa", "id_b", "id_c"]⟩ 7 =
      ([.ok [.dummy],
        .error (.connection ⟨none, { sshHost := "h" }, 0⟩
          (.userInputCancel (.errStr "canceled")))],
       [.poppedIdentityFile "id_rsa", .passphrasePrompt "id_rsa",
        .poppedIdentityFile "id_b", .passphrasePrompt "id_b"]) :=
  claim_C6
    { passphraseAnswer := fun q =>
        if q == "id_rsa" then .text "wrong" else .cancel (.errStr "canceled")
      dummyGen := .ok ()
      expandHomeDir := fun s => some s
      readFile := fun _ => none }
    {} [("id_rsa", .encrypted "secret" "K1" true),
        ("id_b", .encrypted "s2" "K2" true),
        ("id_c", .encrypted "s3" "K3" true)]
    false ⟨none, { sshHost := "h" }, 0⟩
    "id_rsa" "id_b" ["id_c"] 5 "secret" "K1" true "s2" "K2" true
    "wrong" (.errStr "canceled") rfl rfl rfl rfl (by decide) rfl rfl

end WaveSsh
